import Mathlib

/-!
Verification development for the delfin storage-driver REST handlers
(`delfin/drivers/hitachi/vsp/rest_handler.py`, token-exchange variant, and
`delfin/drivers/dell_emc/vplex/rest_handler.py`, header-credential variant).

The Python methods are shallowly embedded as pure Lean functions with
explicit state passing.  The external HTTP transport (`do_call`, inherited
from `RestClient`, not part of the sources) is modelled as a script of
outcomes consumed one request at a time; every issued request is appended
to a log so that theorems can count re-authentications and retries.
Exceptions are modelled with `Except`; since Python exceptions do not roll
back state, an erroneous result still carries the mutated state.
-/

namespace DelfinVsp

/-- Substring containment, the Python `needle in hay` operator on `str`:
true iff `needle` occurs contiguously in `hay`. -/
def strInAux (needle : List Char) : List Char → Bool
  | [] => needle.isPrefixOf []
  | c :: rest => needle.isPrefixOf (c :: rest) || strInAux needle rest

/-- Python `needle in hay` for strings. -/
def strIn (needle hay : String) : Bool :=
  strInAux needle.data hay.data

/-- Modelled from the spec: the CredentialVault collaborator (`delfin.cryptor`,
not in src) encrypts a plaintext string; here a marker character is prepended,
so that encrypted and plaintext forms are distinguishable and
`decode (encode s) = s`. -/
def cryptorEncode (s : String) : String := String.mk ('#' :: s.data)

/-- Modelled from the spec: CredentialVault decryption, inverse of
`cryptorEncode`. -/
def cryptorDecode (s : String) : String := String.mk (s.data.drop 1)

/-- `RestHandler.COMM_URL`. -/
def COMM_URL : String := "/ConfigurationManager/v1/objects/storages"

/-- `RestHandler.LOGOUT_URL`. -/
def LOGOUT_URL : String := "/ConfigurationManager/v1/objects/sessions/"

/-- Modelled from the spec: `consts.SOCKET_TIMEOUT` (the consts module is not
in src); the default per-call timeout. -/
def SOCKET_TIMEOUT : Nat := 30

/-- Modelled from the spec: `consts.ERROR_SESSION_INVALID_CODE`, the
vendor-specific "session invalid" HTTP status code. -/
def ERROR_SESSION_INVALID_CODE : Nat := 403

/-- Modelled from the spec: `consts.ERROR_SESSION_IS_BEING_USED_CODE`, the
vendor-specific "session already in use" HTTP status code. -/
def ERROR_SESSION_IS_BEING_USED_CODE : Nat := 409

/-- Modelled from the spec: `consts.SUPPORTED_VSP_SERIES`, the model
allow-list used by device discovery. -/
def SUPPORTED_VSP_SERIES : List String :=
  ["VSP G350", "VSP G370", "VSP G700", "VSP G900",
   "VSP F350", "VSP F370", "VSP F700", "VSP F900"]

/-- One entry of the `data` list returned by the discovery endpoint; each
field models `system.get(key)`, absent keys being `none`. -/
structure StorageSystem where
  model : Option String
  ctl1Ip : Option String
  ctl2Ip : Option String
  svpIp : Option String
  storageDeviceId : Option String
  serialNumber : Option String
deriving Repr, DecidableEq

/-- The parsed JSON body of a Hitachi response, restricted to the keys the
handler reads: `sessionId` and `token` (session-creation endpoint) and
`data` (discovery endpoint, `none` when the key is absent). -/
structure HBody where
  sessionId : String
  token : String
  data : Option (List StorageSystem)
deriving Repr, DecidableEq

/-- An HTTP response as seen by the handler: status code, raw text and
parsed JSON body. -/
structure Response where
  status_code : Nat
  text : String
  json : HBody
deriving Repr, DecidableEq

/-- Exceptions raised by the handler or its collaborators. -/
inductive Exc where
  | InvalidResults (text : String)
  | InvalidUsernameOrPassword
  | StorageBackendException (text : String)
  | BadResponse (text : String)
  | AttributeError
  | TypeError
  | TransportError (msg : String)
deriving Repr, DecidableEq

/-- One scripted outcome of the external transport: a response, or a
transport-level exception. -/
inductive TransportStep where
  | ret (r : Response)
  | exn (e : Exc)
deriving Repr, DecidableEq

/-- Record of one request actually issued to the transport: URL, method and
the Authorization header value that was resident at send time. -/
structure RequestRec where
  url : String
  method : Option String
  sentAuth : Option String
deriving Repr, DecidableEq

/-- The `requests.Session` object, restricted to the state the handler
touches: the `Authorization` header slot and the basic-auth credentials. -/
structure Session where
  authHeader : Option String
  basicAuth : Option (String × String)
deriving Repr, DecidableEq

/-- Mutable state of a `RestHandler` instance, together with the transport
model: the remaining script of outcomes and the log of issued requests. -/
structure HandlerState where
  session : Option Session
  session_id : Option String
  storage_device_id : Option String
  device_model : Option String
  serial_number : Option String
  script : List TransportStep
  calls : List RequestRec
deriving Repr, DecidableEq

/-- Immutable configuration of the handler: whether a san address is
configured (Python truthiness of `self.san_address`), and the configured
host and credentials. -/
structure Config where
  san_address : Bool
  rest_host : String
  rest_username : String
  rest_password : String
deriving Repr, DecidableEq

/-- The Authorization header currently resident in the shared session state
(`self.session.headers.get('Authorization')`, `none` when there is no
session or no header). -/
def headerOf (s : HandlerState) : Option String :=
  match s.session with
  | none => none
  | some sess => sess.authHeader

/-- Overwrite the Authorization header slot of the session, a no-op when no
session exists. -/
def setHeader (s : HandlerState) (v : Option String) : HandlerState :=
  match s.session with
  | none => s
  | some sess => { s with session := some { sess with authHeader := v } }

/-- Python `str(x)` as applied to an optional device id inside an f-string:
`None` renders as the string "None". -/
def optStr : Option String → String
  | none => "None"
  | some s => s

/-- Modelled from the spec: `RestClient.init_http_head` (not in src) creates
a fresh transport session carrying no Authorization header. -/
def init_http_head (s : HandlerState) : HandlerState :=
  { s with session := some { authHeader := none, basicAuth := none } }

/-- Modelled from the spec: the Transport collaborator
(`RestClient.do_call`, not in src) performs a single HTTP request and never
retries; here it consumes the head of the script and logs the request. -/
def do_call (url : String) (method : Option String) (s : HandlerState) :
    Except Exc Response × HandlerState :=
  let r : RequestRec := { url := url, method := method, sentAuth := headerOf s }
  match s.script with
  | [] => (Except.error (Exc.TransportError "no scripted response"),
           { s with calls := s.calls ++ [r] })
  | TransportStep.ret res :: rest =>
      (Except.ok res, { s with script := rest, calls := s.calls ++ [r] })
  | TransportStep.exn e :: rest =>
      (Except.error e, { s with script := rest, calls := s.calls ++ [r] })

/-- `RestHandler.call_with_token`: when a (truthy) Authorization header is
cached, decrypt it into the header slot for this one request, issue the
request, and restore the encrypted value afterwards (only on the normal
return path; an exception from `do_call` skips the restore). -/
def call_with_token (url : String) (method : Option String)
    (s : HandlerState) : Except Exc Response × HandlerState :=
  match headerOf s with
  | none => do_call url method s
  | some auth_key =>
      if auth_key == "" then do_call url method s
      else
        let s1 := setHeader s (some (cryptorDecode auth_key))
        let (r, s2) := do_call url method s1
        match r with
        | Except.error e => (Except.error e, s2)
        | Except.ok res => (Except.ok res, setHeader s2 (some auth_key))

/-- The first half of the `get_token` critical section: ensure a session
exists (`init_http_head` when there is none) and install basic auth with
the username and the decrypted password. -/
def prepSession (cfg : Config) (s : HandlerState) : HandlerState :=
  let s0 := match s.session with
    | none => init_http_head s
    | some _ => s
  match s0.session with
  | none => s0
  | some sess => { s0 with session := some { sess with
      basicAuth := some (cfg.rest_username, cryptorDecode cfg.rest_password) } }

/-- `RestHandler.get_token`: under the session lock, ensure a session
exists, install basic auth with the decrypted password, POST to the
per-device session-creation endpoint; on 200 store the cryptor-encoded
session id and bearer token and return true; on any other status raise an
exception chosen by markers in the response text.  Without a configured
san address, return false without any request. -/
def get_token (cfg : Config) (s : HandlerState) :
    Except Exc Bool × HandlerState :=
  if cfg.san_address then
    let url := COMM_URL ++ "/" ++ optStr s.storage_device_id ++ "/sessions"
    let s1 := prepSession cfg s
    let (r, s2) := call_with_token url (some "POST") s1
    match r with
    | Except.error e => (Except.error e, s2)
    | Except.ok res =>
        if res.status_code == 200 then
          let access_session := "Session " ++ res.json.token
          let s3 := { s2 with session_id := some (cryptorEncode res.json.sessionId) }
          (Except.ok true, setHeader s3 (some (cryptorEncode access_session)))
        else
          if strIn "authentication failed" res.text then
            (Except.error Exc.InvalidUsernameOrPassword, s2)
          else if strIn "KART30005-E" res.text then
            (Except.error (Exc.StorageBackendException res.text), s2)
          else
            (Except.error (Exc.BadResponse res.text), s2)
  else
    (Except.ok false, s)

/-- `RestHandler.call`: issue the request through `call_with_token`; on a
"session invalid" or "session in use" status, return immediately when the
request is a DELETE whose URL contains `LOGOUT_URL`, otherwise
re-authenticate via `get_token` and, when it returns true, retry the
request once; on status 503 raise `InvalidResults`; otherwise return the
response. -/
def call (cfg : Config) (url : String) (method : Option String)
    (s : HandlerState) : Except Exc Response × HandlerState :=
  let (r1, s1) := call_with_token url method s
  match r1 with
  | Except.error e => (Except.error e, s1)
  | Except.ok res =>
      if res.status_code == ERROR_SESSION_INVALID_CODE ||
         res.status_code == ERROR_SESSION_IS_BEING_USED_CODE then
        if method == some "DELETE" && strIn LOGOUT_URL url then
          (Except.ok res, s1)
        else
          let (rt, s2) := get_token cfg s1
          match rt with
          | Except.error e => (Except.error e, s2)
          | Except.ok true => call_with_token url method s2
          | Except.ok false => (Except.ok res, s2)
      else if res.status_code == 503 then
        (Except.error (Exc.InvalidResults res.text), s1)
      else
        (Except.ok res, s1)

/-- `RestHandler.get_rest_info`: for a non-root URL with a session but no
cached Authorization header, force a `get_token` first; then GET through
`call` and return the parsed body when the status is 200, `None`
otherwise. -/
def get_rest_info (cfg : Config) (url : String) (s : HandlerState) :
    Except Exc (Option HBody) × HandlerState :=
  let pre : Except Exc Unit × HandlerState :=
    match s.session with
    | none => (Except.ok (), s)
    | some sess =>
        if url == COMM_URL then (Except.ok (), s)
        else
          match sess.authHeader with
          | none =>
              let (r, s') := get_token cfg s
              match r with
              | Except.error e => (Except.error e, s')
              | Except.ok _ => (Except.ok (), s')
          | some _ => (Except.ok (), s)
  match pre with
  | (Except.error e, s') => (Except.error e, s')
  | (Except.ok _, s') =>
      let (r, s'') := call cfg url (some "GET") s'
      match r with
      | Except.error e => (Except.error e, s'')
      | Except.ok res =>
          (Except.ok (if res.status_code == 200 then some res.json else none), s'')

/-- The match test of one iteration of the discovery loop in
`RestHandler.get_device_id`: a supported model whose ctl1Ip or ctl2Ip
equals the configured host breaks, and otherwise (`elif`) an unsupported
model whose svpIp equals the configured host breaks. -/
def sysMatches (cfg : Config) (sys : StorageSystem) : Bool :=
  match sys.model with
  | some m =>
      if SUPPORTED_VSP_SERIES.contains m then
        sys.ctl1Ip == some cfg.rest_host || sys.ctl2Ip == some cfg.rest_host
      else
        sys.svpIp == some cfg.rest_host
  | none => sys.svpIp == some cfg.rest_host

/-- Copy the matched system's fields into the handler state
(`storage_device_id`, `device_model`, `serial_number`). -/
def setDevice (s : HandlerState) (sys : StorageSystem) : HandlerState :=
  { s with storage_device_id := sys.storageDeviceId,
           device_model := sys.model,
           serial_number := sys.serialNumber }

/-- The `for system in system_info` loop of `RestHandler.get_device_id`:
`succeed` is set to true on entering every iteration, the first matching
system is copied into the state and the loop breaks; an empty list leaves
`succeed` false. -/
def deviceLoop (cfg : Config) : List StorageSystem → HandlerState →
    Bool × HandlerState
  | [], s => (false, s)
  | sys :: rest, s =>
      if sysMatches cfg sys then (true, setDevice s sys)
      else (true, (deviceLoop cfg rest s).2)

/-- `RestHandler.get_device_id`: ensure a session exists, fetch the
discovery list via `get_system_info` (that is, `get_rest_info COMM_URL`),
iterate it first-match-wins, and return `succeed`.  A `None` body raises
(`None.get`), as does iterating a `None` data field. -/
def get_device_id (cfg : Config) (s : HandlerState) :
    Except Exc Bool × HandlerState :=
  let s0 := match s.session with
    | none => init_http_head s
    | some _ => s
  let (r, s1) := get_rest_info cfg COMM_URL s0
  match r with
  | Except.error e => (Except.error e, s1)
  | Except.ok none => (Except.error Exc.AttributeError, s1)
  | Except.ok (some body) =>
      match body.data with
      | none => (Except.error Exc.TypeError, s1)
      | some systems =>
          let (succeed, s2) := deviceLoop cfg systems s1
          (Except.ok succeed, s2)

/-- `RestHandler.login`: delegate to `get_device_id`, re-raising any
exception. -/
def login (cfg : Config) (s : HandlerState) : Except Exc Bool × HandlerState :=
  get_device_id cfg s

/-- The session-deletion URL that `RestHandler.logout` builds from the
stored device id and decrypted session id. -/
def logoutUrl (s : HandlerState) (sid : String) : String :=
  COMM_URL ++ "/" ++ optStr s.storage_device_id ++ "/sessions/" ++
    cryptorDecode sid

/-- `RestHandler.logout`: with no session id, log and do nothing; otherwise
build the session-deletion URL and, when a san address is configured,
DELETE it through `call` and clear session id, device identity and the
session handle together; any exception is wrapped into
`StorageBackendException`. -/
def logout (cfg : Config) (s : HandlerState) :
    Except Exc Unit × HandlerState :=
  match s.session_id with
  | none => (Except.ok (), s)
  | some sid =>
      if cfg.san_address then
        let (r, s1) := call cfg (logoutUrl s sid) (some "DELETE") s
        match r with
        | Except.error _ =>
            (Except.error (Exc.StorageBackendException
              "Failed to Logout from restful"), s1)
        | Except.ok _ =>
            let s2 := { s1 with session_id := none,
                                storage_device_id := none,
                                device_model := none,
                                serial_number := none,
                                session := none }
            (Except.ok (), s2)
      else (Except.ok (), s)

end DelfinVsp

namespace DelfinVplex

/-- The parsed JSON body of a vplex response, restricted to the one key the
handler reads: `response` (`none` when the key is absent). -/
structure VBody where
  response : Option String
deriving Repr, DecidableEq

/-- An HTTP response as seen by the vplex handler. -/
structure VResponse where
  status_code : Nat
  text : String
  json : VBody
deriving Repr, DecidableEq

/-- One scripted outcome of the vplex transport. -/
inductive VStep where
  | ret (r : VResponse)
  | exn (e : DelfinVsp.Exc)
deriving Repr, DecidableEq

/-- Modelled from the spec: the vplex Transport (`RestClient.do_call`, not
in src) performs a single request, here given by its scripted outcome. -/
def do_call (step : VStep) : Except DelfinVsp.Exc VResponse :=
  match step with
  | VStep.ret r => Except.ok r
  | VStep.exn e => Except.error e

/-- Vplex `RestHandler.get_rest_info`: issue the request and return the
`response` member of the parsed body when the status is 200, `None`
otherwise. -/
def get_rest_info (step : VStep) : Except DelfinVsp.Exc (Option String) :=
  match do_call step with
  | Except.error e => Except.error e
  | Except.ok res =>
      Except.ok (if res.status_code == 200 then res.json.response else none)

end DelfinVplex

namespace DelfinVsp

/-- Test configuration: san address configured, management host 10.0.0.1. -/
def cfgFix : Config := ⟨true, "10.0.0.1", "u", cryptorEncode "pw"⟩

/-- Test configuration with no san address configured. -/
def cfgNoSanFix : Config := ⟨false, "10.0.0.1", "u", cryptorEncode "pw"⟩

/-- A parsed body carrying a session id and token. -/
def bodyFix : HBody := ⟨"sid1", "tok1", none⟩

/-- A session whose Authorization header caches an encrypted bearer value. -/
def sessFix : Session := ⟨some (cryptorEncode "Session old"), none⟩

/-- A "session invalid" response. -/
def r403Fix : Response := ⟨403, "invalid session", bodyFix⟩

/-- A failed session-creation response marking bad credentials. -/
def rAuthFailFix : Response := ⟨401, "authentication failed", bodyFix⟩

/-- A successful session-creation response. -/
def rPost200Fix : Response := ⟨200, "created", bodyFix⟩

/-- A plain success response. -/
def r200Fix : Response := ⟨200, "ok", bodyFix⟩

/-- A plain not-found response. -/
def r404Fix : Response := ⟨404, "not found", bodyFix⟩

/-- A hard backend fault response. -/
def r503Fix : Response := ⟨503, "backend down", bodyFix⟩

/-- State for the C1 success path: session invalid, then successful
re-authentication, then a retry answered 200. -/
def stC1aFix : HandlerState :=
  ⟨some sessFix, none, some "dev1", none, none,
   [TransportStep.ret r403Fix, TransportStep.ret rPost200Fix,
    TransportStep.ret r200Fix], []⟩

/-- State for the C1 no-san path: a single session-invalid response. -/
def stC1bFix : HandlerState :=
  ⟨some sessFix, none, some "dev1", none, none, [TransportStep.ret r403Fix], []⟩

/-- State for the C1 failing re-authentication path: session invalid, then
the session-creation POST rejected with an authentication-failure marker. -/
def stC1cFix : HandlerState :=
  ⟨some sessFix, none, some "dev1", none, none,
   [TransportStep.ret r403Fix, TransportStep.ret rAuthFailFix], []⟩

/-- State for C2: an authenticated session with a stored session id whose
DELETE will be answered "session invalid", followed by a scripted
re-authentication and retry. -/
def stC2Fix : HandlerState :=
  ⟨some sessFix, some (cryptorEncode "sid1"), some "dev1", some "VSP G350",
   some "sn", [TransportStep.ret r403Fix, TransportStep.ret rPost200Fix,
   TransportStep.ret r200Fix], []⟩

/-- A discovered system matching neither the model allow-list nor any
configured address. -/
def sysNoMatchFix : StorageSystem :=
  ⟨some "XX", some "1.1.1.1", some "2.2.2.2", some "3.3.3.3",
   some "devZ", some "snZ"⟩

/-- A discovered system of a supported model whose ctl1Ip equals the
configured host. -/
def sysMatchFix : StorageSystem :=
  ⟨some "VSP G350", some "10.0.0.1", some "2.2.2.2", none,
   some "dev1", some "sn1"⟩

/-- A discovered system of a supported model whose control addresses do not
match the configured host but whose svpIp does. -/
def sysC6Fix : StorageSystem :=
  ⟨some "VSP G350", some "1.1.1.1", some "2.2.2.2", some "10.0.0.1",
   some "dev9", some "sn9"⟩

/-- Fresh-handler state whose discovery response lists exactly one
non-matching system. -/
def stC3Fix : HandlerState :=
  ⟨none, none, none, none, none,
   [TransportStep.ret ⟨200, "ok", ⟨"", "", some [sysNoMatchFix]⟩⟩], []⟩

/-- Fresh-handler state whose discovery response lists exactly one system:
a supported model matching only by svpIp. -/
def stC6Fix : HandlerState :=
  ⟨none, none, none, none, none,
   [TransportStep.ret ⟨200, "ok", ⟨"", "", some [sysC6Fix]⟩⟩], []⟩

/-- Fresh-handler state whose discovery response lists a non-matching
system, then a matching one, then another candidate. -/
def stC6wFix : HandlerState :=
  ⟨none, none, none, none, none,
   [TransportStep.ret ⟨200, "ok",
     ⟨"", "", some [sysNoMatchFix, sysMatchFix, sysC6Fix]⟩⟩], []⟩

/-- Authenticated state answered by a single 404 response. -/
def stC7Fix : HandlerState :=
  ⟨some sessFix, none, some "dev1", none, none,
   [TransportStep.ret r404Fix], []⟩

/-- Authenticated state with a stored session id whose DELETE will be
answered 200. -/
def stC8Fix : HandlerState :=
  ⟨some sessFix, some (cryptorEncode "sid1"), some "dev1", some "VSP G350",
   some "sn", [TransportStep.ret r200Fix], []⟩

/-- Authenticated state answered by a single 200 response. -/
def stC5Fix : HandlerState :=
  ⟨some sessFix, none, some "dev1", none, none,
   [TransportStep.ret r200Fix], []⟩

/-- Authenticated state answered by a single 503 response. -/
def stC4Fix : HandlerState :=
  ⟨some sessFix, none, some "dev1", none, none,
   [TransportStep.ret r503Fix], []⟩

/-- A vplex response with status 404 and no `response` member. -/
def vr404Fix : DelfinVplex.VResponse := ⟨404, "not found", ⟨none⟩⟩

end DelfinVsp

namespace DelfinVsp

theorem cryptorDecode_encode (s : String) :
    cryptorDecode (cryptorEncode s) = s := rfl

theorem cryptorEncode_ne_empty (s : String) : cryptorEncode s ≠ "" := by
  intro h
  have hd := congrArg String.data h
  simp [cryptorEncode] at hd

theorem deviceLoop_noMatch (cfg : Config) (l : List StorageSystem)
    (s : HandlerState) (h : ∀ x ∈ l, sysMatches cfg x = false) :
    deviceLoop cfg l s = (!l.isEmpty, s) := by
  induction l with
  | nil => simp [deviceLoop]
  | cons sys rest ih =>
      have hx := h sys (List.mem_cons_self sys rest)
      have hr : ∀ x ∈ rest, sysMatches cfg x = false :=
        fun x hm => h x (List.mem_cons_of_mem _ hm)
      simp [deviceLoop, hx, ih hr]

theorem deviceLoop_firstMatch (cfg : Config) (pre : List StorageSystem)
    (sys : StorageSystem) (post : List StorageSystem) (s : HandlerState)
    (hpre : ∀ x ∈ pre, sysMatches cfg x = false)
    (hsys : sysMatches cfg sys = true) :
    deviceLoop cfg (pre ++ sys :: post) s = (true, setDevice s sys) := by
  induction pre with
  | nil => simp [deviceLoop, hsys]
  | cons y rest ih =>
      have hy := hpre y (List.mem_cons_self y rest)
      have hr : ∀ x ∈ rest, sysMatches cfg x = false :=
        fun x hm => hpre x (List.mem_cons_of_mem _ hm)
      simp [deviceLoop, hy, ih hr]

theorem do_call_session (url : String) (method : Option String)
    (s : HandlerState) : ((do_call url method s).2).session = s.session := by
  rcases hscr : s.script with _ | ⟨step, rest⟩
  · simp [do_call, hscr]
  · cases step <;> simp [do_call, hscr]

theorem cwt_ok_header (url : String) (method : Option String) (s : HandlerState)
    (a : String) (r : Response) (s' : HandlerState)
    (ha : headerOf s = some a) (hne : a ≠ "")
    (h : call_with_token url method s = (Except.ok r, s')) :
    headerOf s' = some a := by
  rcases hsess : s.session with _ | sess
  · simp [headerOf, hsess] at ha
  · have ha' : sess.authHeader = some a := by simpa [headerOf, hsess] using ha
    rcases hscr : s.script with _ | ⟨step, rest⟩
    · simp [call_with_token, do_call, headerOf, setHeader, hsess, ha', hne,
            hscr] at h
    · cases step with
      | ret res =>
          simp [call_with_token, do_call, headerOf, setHeader, hsess, ha', hne,
                hscr] at h
          rcases h with ⟨hr, hs⟩
          rw [← hs]
          simp [headerOf]
      | exn e =>
          simp [call_with_token, do_call, headerOf, setHeader, hsess, ha', hne,
                hscr] at h

theorem cwt_session_isSome (url : String) (method : Option String)
    (s : HandlerState) (hs : s.session.isSome = true) :
    ((call_with_token url method s).2).session.isSome = true := by
  rcases hsess : s.session with _ | sess
  · rw [hsess] at hs; simp at hs
  · rcases hh : sess.authHeader with _ | a
    · simp [call_with_token, headerOf, hsess, hh, do_call_session]
    · cases haz : a == ""
      · rcases hd : do_call url method (setHeader s (some (cryptorDecode a)))
          with ⟨r, s2⟩
        have h2 : s2.session = some ⟨some (cryptorDecode a), sess.basicAuth⟩ := by
          have := do_call_session url method (setHeader s (some (cryptorDecode a)))
          rw [hd] at this
          simpa [setHeader, hsess] using this
        cases r with
        | error e =>
            simp [call_with_token, headerOf, hsess, hh, haz, hd, h2]
        | ok res =>
            simp [call_with_token, headerOf, hsess, hh, haz, hd, h2]
            simp [setHeader, h2]
      · simp [call_with_token, headerOf, hsess, hh, haz, do_call_session]

theorem prepSession_session (cfg : Config) (s : HandlerState) :
    ((prepSession cfg s).session).isSome = true := by
  rcases hsess : s.session with _ | sess <;>
    simp [prepSession, init_http_head, hsess]

theorem get_token_ok_false (cfg : Config) (s : HandlerState) (s' : HandlerState)
    (h : get_token cfg s = (Except.ok false, s')) : s' = s := by
  cases hsan : cfg.san_address
  · simp [get_token, hsan] at h
    exact h.symm
  · exfalso
    rcases h1 : call_with_token
        (COMM_URL ++ "/" ++ optStr s.storage_device_id ++ "/sessions")
        (some "POST") (prepSession cfg s) with ⟨r, s2⟩
    cases r with
    | error e => simp [get_token, hsan, h1] at h
    | ok res =>
        cases hst : res.status_code == 200 <;>
          cases hf : strIn "authentication failed" res.text <;>
            cases hk : strIn "KART30005-E" res.text <;>
              simp [get_token, hsan, h1, hst, hf, hk] at h

theorem get_token_ok_true_header (cfg : Config) (s : HandlerState)
    (s' : HandlerState) (h : get_token cfg s = (Except.ok true, s')) :
    ∃ y, headerOf s' = some (cryptorEncode y) := by
  cases hsan : cfg.san_address
  · simp [get_token, hsan] at h
  · rcases h1 : call_with_token
        (COMM_URL ++ "/" ++ optStr s.storage_device_id ++ "/sessions")
        (some "POST") (prepSession cfg s) with ⟨r, s2⟩
    cases r with
    | error e => simp [get_token, hsan, h1] at h
    | ok res =>
        cases hst : res.status_code == 200
        · exfalso
          cases hf : strIn "authentication failed" res.text <;>
            cases hk : strIn "KART30005-E" res.text <;>
              simp [get_token, hsan, h1, hst, hf, hk] at h
        · have h2s : s2.session.isSome = true := by
            have := cwt_session_isSome
              (COMM_URL ++ "/" ++ optStr s.storage_device_id ++ "/sessions")
              (some "POST") (prepSession cfg s) (prepSession_session cfg s)
            rw [h1] at this
            exact this
          rcases hs2 : s2.session with _ | sess2
          · rw [hs2] at h2s; simp at h2s
          · simp [get_token, hsan, h1, hst] at h
            refine ⟨"Session " ++ res.json.token, ?_⟩
            rw [← h]
            simp [setHeader, headerOf, hs2]

theorem call_ok_headerEnc (cfg : Config) (url : String) (method : Option String)
    (s : HandlerState) (x : String) (r : Response) (s' : HandlerState)
    (hx : headerOf s = some (cryptorEncode x))
    (h : call cfg url method s = (Except.ok r, s')) :
    ∃ y, headerOf s' = some (cryptorEncode y) := by
  rcases h1 : call_with_token url method s with ⟨r1, s1⟩
  cases r1 with
  | error e => simp [call, h1] at h
  | ok res =>
      have hh1 : headerOf s1 = some (cryptorEncode x) :=
        cwt_ok_header url method s (cryptorEncode x) res s1 hx
          (cryptorEncode_ne_empty x) h1
      cases hc : (res.status_code == ERROR_SESSION_INVALID_CODE ||
                  res.status_code == ERROR_SESSION_IS_BEING_USED_CODE)
      · cases h503 : res.status_code == 503
        · simp [call, h1, hc, h503] at h
          exact ⟨x, by rw [← h.2]; exact hh1⟩
        · simp [call, h1, hc, h503] at h
      · cases hg : (method == some "DELETE" && strIn LOGOUT_URL url)
        · rcases h2 : get_token cfg s1 with ⟨rt, s2⟩
          cases rt with
          | error e => simp [call, h1, hc, hg, h2] at h
          | ok b =>
              cases b
              · have hs2 : s2 = s1 := get_token_ok_false cfg s1 s2 h2
                simp [call, h1, hc, hg, h2] at h
                exact ⟨x, by rw [← h.2, hs2]; exact hh1⟩
              · obtain ⟨y, hy⟩ := get_token_ok_true_header cfg s1 s2 h2
                simp [call, h1, hc, hg, h2] at h
                exact ⟨y, cwt_ok_header url method s2 (cryptorEncode y) r s' hy
                  (cryptorEncode_ne_empty y) h⟩
        · simp [call, h1, hc, hg] at h
          exact ⟨x, by rw [← h.2]; exact hh1⟩

theorem cwt_ret (url : String) (method : Option String) (s : HandlerState)
    (r : Response) (rest : List TransportStep)
    (hscr : s.script = TransportStep.ret r :: rest) :
    (call_with_token url method s).1 = Except.ok r ∧
    ((call_with_token url method s).2).script = rest ∧
    ((call_with_token url method s).2).calls.length = s.calls.length + 1 := by
  rcases hsess : s.session with _ | sess
  · simp [call_with_token, do_call, headerOf, hsess, hscr]
  · rcases hh : sess.authHeader with _ | a
    · simp [call_with_token, do_call, headerOf, hsess, hh, hscr]
    · cases haz : a == "" <;>
        simp [call_with_token, do_call, headerOf, setHeader, hsess, hh, haz,
              hscr]

end DelfinVsp

namespace DelfinVsp

/-- Claim C2 (code bug evidence): the session-deletion URL built by
`logout` does not contain `LOGOUT_URL` as a substring, so the logout guard
in `call` never fires: a DELETE to that URL answered with the
session-invalid status is not returned verbatim; instead `call` issues a
re-authentication POST and a retried DELETE (three transport requests in
all), contradicting the spec's zero-retry teardown rule. -/
theorem C2_logout_delete_retried :
    r403Fix.status_code = ERROR_SESSION_INVALID_CODE ∧
    strIn LOGOUT_URL (logoutUrl stC2Fix (cryptorEncode "sid1")) = false ∧
    (logout cfgFix stC2Fix).2.calls.map RequestRec.method =
      [some "DELETE", some "POST", some "DELETE"] ∧
    (logout cfgFix stC2Fix).2.calls.map RequestRec.url =
      [logoutUrl stC2Fix (cryptorEncode "sid1"),
       COMM_URL ++ "/dev1/sessions",
       logoutUrl stC2Fix (cryptorEncode "sid1")] :=
  ⟨rfl, rfl, rfl, rfl⟩

/-- Claim C3 (counterexample): a discovery list with one system matching
neither the allow-list rule nor the svp rule makes `login` return
success=true with no device id resolved, refuting the claim that
exhausting the list without a match yields success=false. -/
theorem C3_counterexample :
    sysMatches cfgFix sysNoMatchFix = false ∧
    (login cfgFix stC3Fix).1 = Except.ok true ∧
    (login cfgFix stC3Fix).2.storage_device_id = none :=
  ⟨rfl, rfl, rfl⟩

/-- Claim C3 (amended): when no system in the discovery list matches,
`login` returns without raising, with no device id resolved, and its
success flag is merely list-nonemptiness: false for an empty discovery
list, true for a non-empty one even though nothing matched. -/
theorem C3_discovery_exhaustion (cfg : Config) (systems : List StorageSystem)
    (si tk t : String) (cs : List RequestRec)
    (h : ∀ x ∈ systems, sysMatches cfg x = false) :
    login cfg ⟨none, none, none, none, none,
      [TransportStep.ret ⟨200, t, ⟨si, tk, some systems⟩⟩], cs⟩ =
    (Except.ok (!systems.isEmpty),
     ⟨some ⟨none, none⟩, none, none, none, none, [],
      cs ++ [⟨COMM_URL, some "GET", none⟩]⟩) := by
  simp [login, get_device_id, get_rest_info, call, call_with_token, do_call,
        headerOf, init_http_head, ERROR_SESSION_INVALID_CODE,
        ERROR_SESSION_IS_BEING_USED_CODE,
        fun s => deviceLoop_noMatch cfg systems s h]

/-- Claim C3 (witness): the amended theorem applied to the empty discovery
list (success=false) and to a one-element non-matching list
(success=true). -/
theorem C3_discovery_exhaustion_witness :
    login cfgFix ⟨none, none, none, none, none,
      [TransportStep.ret ⟨200, "ok", ⟨"", "", some []⟩⟩], []⟩ =
    (Except.ok false,
     ⟨some ⟨none, none⟩, none, none, none, none, [],
      [⟨COMM_URL, some "GET", none⟩]⟩) ∧
    login cfgFix ⟨none, none, none, none, none,
      [TransportStep.ret ⟨200, "ok", ⟨"", "", some [sysNoMatchFix]⟩⟩], []⟩ =
    (Except.ok true,
     ⟨some ⟨none, none⟩, none, none, none, none, [],
      [⟨COMM_URL, some "GET", none⟩]⟩) :=
  ⟨C3_discovery_exhaustion cfgFix [] "" "" "ok" [] (by simp),
   C3_discovery_exhaustion cfgFix [sysNoMatchFix] "" "" "ok" []
     (by intro x hx; simp at hx; subst hx; rfl)⟩

/-- Claim C4: a first response with status 503 (not a session-invalid
code) makes `call` raise `InvalidResults` immediately: exactly one
transport request is issued, so there is no re-authentication and no
retry. -/
theorem C4_503_fast_fail (cfg : Config) (url : String) (method : Option String)
    (s : HandlerState) (t : String) (b : HBody) (rest : List TransportStep)
    (hscr : s.script = TransportStep.ret ⟨503, t, b⟩ :: rest) :
    (call cfg url method s).1 = Except.error (Exc.InvalidResults t) ∧
    ((call cfg url method s).2).script = rest ∧
    ((call cfg url method s).2).calls.length = s.calls.length + 1 := by
  have h1 := cwt_ret url method s ⟨503, t, b⟩ rest hscr
  rcases h2 : call_with_token url method s with ⟨r1, s1⟩
  rw [h2] at h1
  obtain ⟨hr1, hs1, hl1⟩ := h1
  simp at hr1
  subst hr1
  simp [call, h2, ERROR_SESSION_INVALID_CODE, ERROR_SESSION_IS_BEING_USED_CODE]
  exact ⟨hs1, hl1⟩

/-- Claim C4 (witness): the 503 theorem applied to an authenticated state
with a single scripted 503 response. -/
theorem C4_503_fast_fail_witness :
    (call cfgFix "/x" (some "GET") stC4Fix).1 =
      Except.error (Exc.InvalidResults "backend down") ∧
    ((call cfgFix "/x" (some "GET") stC4Fix).2).script = [] ∧
    ((call cfgFix "/x" (some "GET") stC4Fix).2).calls.length =
      stC4Fix.calls.length + 1 :=
  C4_503_fast_fail cfgFix "/x" (some "GET") stC4Fix "backend down" bodyFix []
    rfl

/-- Claim C6 (counterexample): a system whose model is in the supported
series and whose svpIp (but neither ctl1Ip nor ctl2Ip) equals the
configured host is skipped by `get_device_id`, refuting the claim that a
matching svpIp alone selects a system. -/
theorem C6_counterexample :
    (sysC6Fix.model = some "VSP G350" ∧
     SUPPORTED_VSP_SERIES.contains "VSP G350" = true ∧
     sysC6Fix.svpIp = some cfgFix.rest_host) ∧
    (login cfgFix stC6Fix).2.storage_device_id = none ∧
    (login cfgFix stC6Fix).2.device_model = none :=
  ⟨⟨rfl, rfl, rfl⟩, rfl, rfl⟩

/-- Claim C6 (amended): device discovery is first-match-wins in
enumeration order, where a system matches iff its model is in the
supported series and ctl1Ip or ctl2Ip equals the configured host, or its
model is not in the supported series and svpIp equals the configured
host; the first match's storageDeviceId, model and serialNumber are
copied into the handler state and all later candidates are ignored. -/
theorem C6_first_match_wins (cfg : Config) (pre : List StorageSystem)
    (sys : StorageSystem) (post : List StorageSystem)
    (si tk t : String) (cs : List RequestRec)
    (hpre : ∀ x ∈ pre, sysMatches cfg x = false)
    (hsys : sysMatches cfg sys = true) :
    login cfg ⟨none, none, none, none, none,
      [TransportStep.ret ⟨200, t, ⟨si, tk, some (pre ++ sys :: post)⟩⟩], cs⟩ =
    (Except.ok true,
     ⟨some ⟨none, none⟩, none, sys.storageDeviceId, sys.model,
      sys.serialNumber, [], cs ++ [⟨COMM_URL, some "GET", none⟩]⟩) := by
  simp [login, get_device_id, get_rest_info, call, call_with_token, do_call,
        headerOf, init_http_head, setDevice, ERROR_SESSION_INVALID_CODE,
        ERROR_SESSION_IS_BEING_USED_CODE,
        fun s => deviceLoop_firstMatch cfg pre sys post s hpre hsys]

/-- Claim C6 (witness): the first-match theorem applied to a discovery
list holding a non-matching system, then a ctl1Ip match, then a further
candidate; the middle system's identity is selected. -/
theorem C6_first_match_wins_witness :
    login cfgFix stC6wFix =
    (Except.ok true,
     ⟨some ⟨none, none⟩, none, sysMatchFix.storageDeviceId, sysMatchFix.model,
      sysMatchFix.serialNumber, [], [⟨COMM_URL, some "GET", none⟩]⟩) :=
  C6_first_match_wins cfgFix [sysNoMatchFix] sysMatchFix [sysC6Fix]
    "" "" "ok" []
    (by intro x hx; simp at hx; subst hx; rfl) rfl

/-- Claim C7: `get_rest_info` returns the parsed body exactly when the
response status is 200 and `None` for ordinary non-200 responses without
raising, in both the Hitachi token-exchange variant and the vplex
header-credential variant (whose parsed body is its `response` member). -/
theorem C7_absent_on_non_200 (cfg : Config) (url : String) (a : String)
    (ba : Option (String × String)) (sid dev dm sn : Option String)
    (r : Response) (rest : List TransportStep) (cs : List RequestRec)
    (vr : DelfinVplex.VResponse)
    (h1 : r.status_code ≠ ERROR_SESSION_INVALID_CODE)
    (h2 : r.status_code ≠ ERROR_SESSION_IS_BEING_USED_CODE)
    (h3 : r.status_code ≠ 503) :
    (get_rest_info cfg url
        ⟨some ⟨some (cryptorEncode a), ba⟩, sid, dev, dm, sn,
         TransportStep.ret r :: rest, cs⟩).1 =
      Except.ok (if r.status_code == 200 then some r.json else none) ∧
    DelfinVplex.get_rest_info (DelfinVplex.VStep.ret vr) =
      Except.ok (if vr.status_code == 200 then vr.json.response else none) := by
  constructor
  · cases hu : url == COMM_URL <;>
      simp [get_rest_info, call, call_with_token, do_call, headerOf, setHeader,
            hu, h1, h2, h3, cryptorEncode_ne_empty, cryptorDecode_encode]
  · rfl

/-- Claim C7 (witness): both variants evaluated on 404 responses yield
`None` rather than an exception. -/
theorem C7_absent_on_non_200_witness :
    (get_rest_info cfgFix "/y" stC7Fix).1 = Except.ok none ∧
    DelfinVplex.get_rest_info (DelfinVplex.VStep.ret vr404Fix) =
      Except.ok none :=
  C7_absent_on_non_200 cfgFix "/y" "Session old" none none (some "dev1")
    none none r404Fix [] [] vr404Fix
    (by decide) (by decide) (by decide)

end DelfinVsp

namespace DelfinVsp

/-- Claim C8: a successful `logout` clears session id, device identity
fields and the session handle together, and a second `logout` from the
cleared state returns without raising, without issuing any further
transport request (its call log and state are unchanged). -/
theorem C8_logout_idempotent (cfg : Config) (a sid : String)
    (ba : Option (String × String)) (dev dm sn : Option String)
    (r : Response) (rest : List TransportStep) (cs : List RequestRec)
    (hsan : cfg.san_address = true)
    (h1 : r.status_code ≠ ERROR_SESSION_INVALID_CODE)
    (h2 : r.status_code ≠ ERROR_SESSION_IS_BEING_USED_CODE)
    (h3 : r.status_code ≠ 503) :
    logout cfg
      ⟨some ⟨some (cryptorEncode a), ba⟩, some (cryptorEncode sid), dev, dm, sn,
       TransportStep.ret r :: rest, cs⟩ =
      (Except.ok (),
       ⟨none, none, none, none, none, rest,
        cs ++ [⟨COMM_URL ++ "/" ++ optStr dev ++ "/sessions/" ++ sid,
               some "DELETE", some a⟩]⟩) ∧
    logout cfg
      ⟨none, none, none, none, none, rest,
       cs ++ [⟨COMM_URL ++ "/" ++ optStr dev ++ "/sessions/" ++ sid,
              some "DELETE", some a⟩]⟩ =
      (Except.ok (),
       ⟨none, none, none, none, none, rest,
        cs ++ [⟨COMM_URL ++ "/" ++ optStr dev ++ "/sessions/" ++ sid,
               some "DELETE", some a⟩]⟩) := by
  constructor
  · simp [logout, logoutUrl, call, call_with_token, do_call, headerOf,
          setHeader, hsan, h1, h2, h3, cryptorDecode_encode,
          cryptorEncode_ne_empty]
  · rfl

/-- Claim C8 (witness): logging out of an authenticated state whose DELETE
is answered 200, then logging out again from the cleared state. -/
theorem C8_logout_idempotent_witness :
    logout cfgFix stC8Fix =
      (Except.ok (),
       ⟨none, none, none, none, none, [],
        [⟨COMM_URL ++ "/" ++ optStr (some "dev1") ++ "/sessions/" ++ "sid1",
         some "DELETE", some "Session old"⟩]⟩) ∧
    logout cfgFix
      ⟨none, none, none, none, none, [],
       [⟨COMM_URL ++ "/" ++ optStr (some "dev1") ++ "/sessions/" ++ "sid1",
        some "DELETE", some "Session old"⟩]⟩ =
      (Except.ok (),
       ⟨none, none, none, none, none, [],
        [⟨COMM_URL ++ "/" ++ optStr (some "dev1") ++ "/sessions/" ++ "sid1",
         some "DELETE", some "Session old"⟩]⟩) :=
  C8_logout_idempotent cfgFix "Session old" "sid1" none (some "dev1")
    (some "VSP G350") (some "sn") r200Fix [] []
    rfl (by decide) (by decide) (by decide)

/-- Claim C10: when the transport raises inside `call_with_token` after the
Authorization header has been decrypted, the exception propagates and the
header slot is left holding the decrypted plaintext value; the encrypted
form is not restored on the exception path. -/
theorem C10_exception_leaves_plaintext (url : String) (method : Option String)
    (a : String) (ba : Option (String × String)) (sid dev dm sn : Option String)
    (e : Exc) (rest : List TransportStep) (cs : List RequestRec) :
    call_with_token url method
      ⟨some ⟨some (cryptorEncode a), ba⟩, sid, dev, dm, sn,
       TransportStep.exn e :: rest, cs⟩ =
      (Except.error e,
       ⟨some ⟨some a, ba⟩, sid, dev, dm, sn, rest,
        cs ++ [⟨url, method, some a⟩]⟩) := by
  simp [call_with_token, do_call, headerOf, setHeader,
        cryptorEncode_ne_empty, cryptorDecode_encode]

/-- Claim C1 (counterexample): with a san address configured, a
session-invalid response followed by a re-authentication POST that fails
with an authentication-failure marker makes `call` raise
`InvalidUsernameOrPassword` after two transport requests, rather than
return the original failing response as the claim asserts for failing
re-authentication. -/
theorem C1_counterexample :
    (call cfgFix "/x" (some "GET") stC1cFix).1 =
      Except.error Exc.InvalidUsernameOrPassword ∧
    (call cfgFix "/x" (some "GET") stC1cFix).2.calls.length = 2 :=
  ⟨rfl, rfl⟩

/-- Claim C1 (amended): on a session-invalid or session-in-use response to
a non-logout request, `call` performs at most one re-authentication and at
most one retry, never a loop.  When the re-authentication POST succeeds,
exactly one POST and one retry are issued and the retry's response is
returned.  When no san address is configured, `get_token` returns false
and the original failing response is returned after a single request.
When the re-authentication POST returns a non-200 status, `get_token`
raises and `call` propagates the exception after exactly two requests,
instead of returning the original response. -/
theorem C1_retry_bounded :
    (∀ (cfg : Config) (url : String) (method : Option String) (a : String)
       (ba : Option (String × String)) (sid dev dm sn : Option String)
       (r1 rp r2 : Response) (rest : List TransportStep)
       (cs : List RequestRec),
      cfg.san_address = true →
      (r1.status_code = ERROR_SESSION_INVALID_CODE ∨
       r1.status_code = ERROR_SESSION_IS_BEING_USED_CODE) →
      ¬(method = some "DELETE" ∧ strIn LOGOUT_URL url = true) →
      rp.status_code = 200 →
      call cfg url method
        ⟨some ⟨some (cryptorEncode a), ba⟩, sid, dev, dm, sn,
         TransportStep.ret r1 :: TransportStep.ret rp :: TransportStep.ret r2 ::
           rest, cs⟩ =
        (Except.ok r2,
         ⟨some ⟨some (cryptorEncode ("Session " ++ rp.json.token)),
               some (cfg.rest_username, cryptorDecode cfg.rest_password)⟩,
          some (cryptorEncode rp.json.sessionId), dev, dm, sn, rest,
          cs ++ [⟨url, method, some a⟩,
                 ⟨COMM_URL ++ "/" ++ optStr dev ++ "/sessions", some "POST",
                  some a⟩,
                 ⟨url, method, some ("Session " ++ rp.json.token)⟩]⟩)) ∧
    (∀ (cfg : Config) (url : String) (method : Option String) (a : String)
       (ba : Option (String × String)) (sid dev dm sn : Option String)
       (r1 : Response) (rest : List TransportStep) (cs : List RequestRec),
      cfg.san_address = false →
      (r1.status_code = ERROR_SESSION_INVALID_CODE ∨
       r1.status_code = ERROR_SESSION_IS_BEING_USED_CODE) →
      ¬(method = some "DELETE" ∧ strIn LOGOUT_URL url = true) →
      call cfg url method
        ⟨some ⟨some (cryptorEncode a), ba⟩, sid, dev, dm, sn,
         TransportStep.ret r1 :: rest, cs⟩ =
        (Except.ok r1,
         ⟨some ⟨some (cryptorEncode a), ba⟩, sid, dev, dm, sn, rest,
          cs ++ [⟨url, method, some a⟩]⟩)) ∧
    (∀ (cfg : Config) (url : String) (method : Option String) (a : String)
       (ba : Option (String × String)) (sid dev dm sn : Option String)
       (r1 rp : Response) (rest : List TransportStep) (cs : List RequestRec),
      cfg.san_address = true →
      (r1.status_code = ERROR_SESSION_INVALID_CODE ∨
       r1.status_code = ERROR_SESSION_IS_BEING_USED_CODE) →
      ¬(method = some "DELETE" ∧ strIn LOGOUT_URL url = true) →
      rp.status_code ≠ 200 →
      (∃ e, (call cfg url method
        ⟨some ⟨some (cryptorEncode a), ba⟩, sid, dev, dm, sn,
         TransportStep.ret r1 :: TransportStep.ret rp :: rest, cs⟩).1 =
          Except.error e) ∧
      (call cfg url method
        ⟨some ⟨some (cryptorEncode a), ba⟩, sid, dev, dm, sn,
         TransportStep.ret r1 :: TransportStep.ret rp :: rest, cs⟩).2.script =
        rest ∧
      (call cfg url method
        ⟨some ⟨some (cryptorEncode a), ba⟩, sid, dev, dm, sn,
         TransportStep.ret r1 :: TransportStep.ret rp :: rest, cs⟩).2.calls =
        cs ++ [⟨url, method, some a⟩,
               ⟨COMM_URL ++ "/" ++ optStr dev ++ "/sessions", some "POST",
                some a⟩]) := by
  refine ⟨?_, ?_, ?_⟩
  · intro cfg url method a ba sid dev dm sn r1 rp r2 rest cs hsan hc hnl hp
    rcases hc with hc | hc <;>
      simp [call, call_with_token, do_call, get_token, prepSession,
            init_http_head, headerOf, setHeader, hsan, hc, hnl, hp,
            cryptorEncode_ne_empty, cryptorDecode_encode]
  · intro cfg url method a ba sid dev dm sn r1 rest cs hsan hc hnl
    rcases hc with hc | hc <;>
      simp [call, call_with_token, do_call, get_token, headerOf, setHeader,
            hsan, hc, hnl, cryptorEncode_ne_empty, cryptorDecode_encode]
  · intro cfg url method a ba sid dev dm sn r1 rp rest cs hsan hc hnl hp
    cases hf : strIn "authentication failed" rp.text <;>
      cases hk : strIn "KART30005-E" rp.text <;>
        rcases hc with hc | hc <;>
          simp [call, call_with_token, do_call, get_token, prepSession,
                init_http_head, headerOf, setHeader, hsan, hc, hnl, hp, hf, hk,
                cryptorEncode_ne_empty, cryptorDecode_encode]

/-- Claim C1 (witness): the three amended paths on concrete states: a
successful re-authentication and retry, a no-san failure returning the
original response, and a rejected re-authentication POST raising. -/
theorem C1_retry_bounded_witness :
    call cfgFix "/x" (some "GET") stC1aFix =
      (Except.ok r200Fix,
       ⟨some ⟨some (cryptorEncode ("Session " ++ rPost200Fix.json.token)),
             some (cfgFix.rest_username, cryptorDecode cfgFix.rest_password)⟩,
        some (cryptorEncode rPost200Fix.json.sessionId), some "dev1", none,
        none, [],
        [⟨"/x", some "GET", some "Session old"⟩,
         ⟨COMM_URL ++ "/" ++ optStr (some "dev1") ++ "/sessions", some "POST",
          some "Session old"⟩,
         ⟨"/x", some "GET", some ("Session " ++ rPost200Fix.json.token)⟩]⟩) ∧
    call cfgNoSanFix "/x" (some "GET") stC1bFix =
      (Except.ok r403Fix,
       ⟨some ⟨some (cryptorEncode "Session old"), none⟩, none, some "dev1",
        none, none, [], [⟨"/x", some "GET", some "Session old"⟩]⟩) ∧
    ((∃ e, (call cfgFix "/x" (some "GET") stC1cFix).1 = Except.error e) ∧
     (call cfgFix "/x" (some "GET") stC1cFix).2.script = [] ∧
     (call cfgFix "/x" (some "GET") stC1cFix).2.calls =
       [⟨"/x", some "GET", some "Session old"⟩,
        ⟨COMM_URL ++ "/" ++ optStr (some "dev1") ++ "/sessions", some "POST",
         some "Session old"⟩]) :=
  ⟨C1_retry_bounded.1 cfgFix "/x" (some "GET") "Session old" none none
     (some "dev1") none none r403Fix rPost200Fix r200Fix [] []
     rfl (Or.inl rfl) (by decide) rfl,
   C1_retry_bounded.2.1 cfgNoSanFix "/x" (some "GET") "Session old" none none
     (some "dev1") none none r403Fix [] []
     rfl (Or.inl rfl) (by decide),
   C1_retry_bounded.2.2 cfgFix "/x" (some "GET") "Session old" none none
     (some "dev1") none none r403Fix rAuthFailFix [] []
     rfl (Or.inl rfl) (by decide) (by decide)⟩

end DelfinVsp

namespace DelfinVsp

/-- Claim C5: credential confidentiality of the shared session header.
First, `call_with_token` decrypts the cached Authorization value only into
the single outbound request (the transport sees the decrypted value) and
restores the encrypted form before returning.  Second, `get_token` stores
only cryptor-encoded values of the session id and bearer token.  Third, in
general, any `call` that starts from an encrypted header and returns
normally leaves some cryptor-encoded value in the header slot. -/
theorem C5_header_confidentiality :
    (∀ (url : String) (method : Option String) (a : String)
       (ba : Option (String × String)) (sid dev dm sn : Option String)
       (r : Response) (rest : List TransportStep) (cs : List RequestRec),
      call_with_token url method
        ⟨some ⟨some (cryptorEncode a), ba⟩, sid, dev, dm, sn,
         TransportStep.ret r :: rest, cs⟩ =
        (Except.ok r,
         ⟨some ⟨some (cryptorEncode a), ba⟩, sid, dev, dm, sn, rest,
          cs ++ [⟨url, method, some a⟩]⟩)) ∧
    (∀ (hh uu pp a : String) (ba : Option (String × String))
       (sid0 dev dm sn : Option String) (t si tk : String)
       (d : Option (List StorageSystem))
       (rest : List TransportStep) (cs : List RequestRec),
      get_token ⟨true, hh, uu, pp⟩
        ⟨some ⟨some (cryptorEncode a), ba⟩, sid0, dev, dm, sn,
         TransportStep.ret ⟨200, t, ⟨si, tk, d⟩⟩ :: rest, cs⟩ =
        (Except.ok true,
         ⟨some ⟨some (cryptorEncode ("Session " ++ tk)),
               some (uu, cryptorDecode pp)⟩,
          some (cryptorEncode si), dev, dm, sn, rest,
          cs ++ [⟨COMM_URL ++ "/" ++ optStr dev ++ "/sessions", some "POST",
                 some a⟩]⟩)) ∧
    (∀ (cfg : Config) (url : String) (method : Option String)
       (s : HandlerState) (x : String) (r : Response) (s' : HandlerState),
      headerOf s = some (cryptorEncode x) →
      call cfg url method s = (Except.ok r, s') →
      ∃ y, headerOf s' = some (cryptorEncode y)) := by
  refine ⟨?_, ?_, ?_⟩
  · intro url method a ba sid dev dm sn r rest cs
    simp [call_with_token, do_call, headerOf, setHeader,
          cryptorEncode_ne_empty, cryptorDecode_encode]
  · intro hh uu pp a ba sid0 dev dm sn t si tk d rest cs
    simp [get_token, prepSession, call_with_token, do_call, headerOf,
          setHeader, cryptorEncode_ne_empty, cryptorDecode_encode]
  · intro cfg url method s x r s' hx h
    exact call_ok_headerEnc cfg url method s x r s' hx h

/-- Claim C5 (witness): the three confidentiality statements on concrete
states: a 200-answered request with an encrypted cached header, a
successful session-creation POST, and a full `call` from an encrypted
header. -/
theorem C5_header_confidentiality_witness :
    call_with_token "/x" (some "GET") stC5Fix =
      (Except.ok r200Fix,
       ⟨some ⟨some (cryptorEncode "Session old"), none⟩, none, some "dev1",
        none, none, [], [⟨"/x", some "GET", some "Session old"⟩]⟩) ∧
    get_token cfgFix
      ⟨some sessFix, none, some "dev1", none, none,
       [TransportStep.ret rPost200Fix], []⟩ =
      (Except.ok true,
       ⟨some ⟨some (cryptorEncode "Session tok1"),
             some ("u", cryptorDecode (cryptorEncode "pw"))⟩,
        some (cryptorEncode "sid1"), some "dev1", none, none, [],
        [⟨COMM_URL ++ "/" ++ optStr (some "dev1") ++ "/sessions", some "POST",
         some "Session old"⟩]⟩) ∧
    (∃ y, headerOf
      ⟨some ⟨some (cryptorEncode "Session old"), none⟩, none, some "dev1",
       none, none, [], [⟨"/x", some "GET", some "Session old"⟩]⟩ =
        some (cryptorEncode y)) :=
  ⟨C5_header_confidentiality.1 "/x" (some "GET") "Session old" none none
     (some "dev1") none none r200Fix [] [],
   C5_header_confidentiality.2.1 "10.0.0.1" "u" (cryptorEncode "pw")
     "Session old" none none (some "dev1") none none "created" "sid1" "tok1"
     none [] [],
   C5_header_confidentiality.2.2 cfgFix "/x" (some "GET") stC5Fix
     "Session old" r200Fix
     ⟨some ⟨some (cryptorEncode "Session old"), none⟩, none, some "dev1",
      none, none, [], [⟨"/x", some "GET", some "Session old"⟩]⟩
     rfl rfl⟩

end DelfinVsp
